import Mathlib

/-!
# Verification of the model hot-swap coordination protocol

Shallow embedding of the model hot-swap subsystem of the candidate-screening
application: the client-side status poller and fallback logic of
`frontend/hooks/useModels.ts`, the UI gating of
`frontend/components/ControlButtons.tsx` and `SystemStatus`, and the backend
Swap Coordinator (modelled from the design document, since the backend service
sources are not part of the provided tree).
-/

namespace HotSwap

/-- The payload returned by `GET /api/models/status`, as consumed by the
frontend (`statusData` in `useModels.ts`): `current_model`,
`inference_mode` and `status` (a string, one of "idle" / "swapping" /
"error"). `none` for a field models a JSON `null` / absent field. -/
structure StatusData where
  current_model : Option String
  inference_mode : Option String
  status : String
deriving DecidableEq, Repr

/-- The poll-success test from `useModels.ts` line 90:
`statusData.status === "idle" && statusData.current_model === modelName`. -/
def isSuccess (d : StatusData) (target : String) : Bool :=
  d.status == "idle" && d.current_model == some target

/-- `maxPollAttempts` constant from `useModels.ts` line 83. -/
def maxPollAttempts : Nat := 50

/-- The polling delay in milliseconds: both the initial
`setTimeout(pollStatus, 3000)` (line 117) and each re-poll
`setTimeout(pollStatus, 3000)` (lines 103, 111). -/
def pollIntervalMs : Nat := 3000

/-- Whether the `pollStatus` loop of `useModels.ts` (lines 85-114) terminates
at poll number `k` (0-indexed; `pollAttempts = k` on entering poll `k`).
`resp k = some d` models the fetch of `/api/models/status` resolving with
payload `d`; `resp k = none` models the fetch throwing (the `catch` branch).
The loop stops when: success (`idle` and matching model), or status
`error`, or `pollAttempts >= maxPollAttempts`; in the `catch` branch only
the attempt-exhaustion test applies. -/
def pollTerminal (resp : Nat → Option StatusData) (target : String) (k : Nat) : Bool :=
  match resp k with
  | some d => isSuccess d target || d.status == "error" || decide (maxPollAttempts ≤ k)
  | none => decide (maxPollAttempts ≤ k)

/-- Fuel-indexed search for the first terminal poll index, starting at `k`. -/
def pollStopAux (resp : Nat → Option StatusData) (target : String) : Nat → Nat → Nat
  | 0, k => k
  | fuel + 1, k => if pollTerminal resp target k then k else pollStopAux resp target fuel (k + 1)

/-- The (0-indexed) number of the poll at which `pollStatus` stops. The fuel
`maxPollAttempts + 1` is enough because `pollTerminal` always holds at
index `maxPollAttempts`. -/
def pollStop (resp : Nat → Option StatusData) (target : String) : Nat :=
  pollStopAux resp target (maxPollAttempts + 1) 0

/-- The status payload observed at the final poll (`none` if that fetch threw). -/
def pollFinal (resp : Nat → Option StatusData) (target : String) : Option StatusData :=
  resp (pollStop resp target)

/-- Whether the poll loop ends in the success branch (line 90) as opposed to
the failure/timeout branches that invoke `fallbackToDefaultModel`. -/
def pollOutcomeIsSuccess (resp : Nat → Option StatusData) (target : String) : Bool :=
  match pollFinal resp target with
  | some d => isSuccess d target
  | none => false

/-- Elapsed time, in milliseconds of `setTimeout` delay, from submission of the
swap until the final poll runs: poll `k` fires `pollIntervalMs * (k + 1)`
after submission (one initial delay plus one delay per re-poll). -/
def pollFinishTime (resp : Nat → Option StatusData) (target : String) : Nat :=
  pollIntervalMs * (pollStop resp target + 1)

/-! ## Client-side swap-attempt state (the `useModels` hook) -/

/-- The hook state of `useModels.ts` that a swap attempt mutates:
`currentModel`, `modelStatus`, `isSwappingModel`, plus the sequence of
`alert(...)` messages shown to the user during the attempt. -/
structure ClientState where
  currentModel : Option StatusData
  modelStatus : String
  isSwappingModel : Bool
  alerts : List String
deriving DecidableEq, Repr

/-- The hardcoded fallback target of `useModels.ts` line 129. -/
def defaultModel : String := "Qwen/Qwen2.5-Omni-7B"

/-- `fallbackToDefaultModel` (`useModels.ts` lines 126-171), as a function of
its environment: `fallbackPostOk` is whether the `POST /api/models/swap`
back to the default model resolves with `response.ok`; `fallbackStatusResp`
is the payload of the single status fetch made 10 seconds later (`none`
if that fetch throws). The returned state is the hook state once the
function (and its inner timeout callback, when scheduled) has finished. -/
def fallbackToDefaultModel (previousModel : Option StatusData)
    (fallbackPostOk : Bool) (fallbackStatusResp : Option StatusData)
    (st : ClientState) : ClientState :=
  if fallbackPostOk then
    match fallbackStatusResp with
    | some d => { st with currentModel := some d, isSwappingModel := false }
    | none => { st with currentModel := previousModel, isSwappingModel := false }
  else
    { st with
      currentModel := some (previousModel.getD ⟨none, none, "error"⟩),
      isSwappingModel := false,
      alerts := st.alerts ++ ["Model switch failed. Please check the model service."] }

/-- The optimistic entry written by `setCurrentModel` right after the swap POST
is accepted (`useModels.ts` lines 74-78). -/
def swappingEntry (modelName mode : String) : StatusData :=
  ⟨some modelName, some mode, "swapping"⟩

/-- The intermediate hook state after the swap POST is accepted and polling
begins (`useModels.ts` lines 49, 74-79). -/
def afterAccept (modelName mode : String) (st0 : ClientState) : ClientState :=
  { st0 with
    currentModel := some (swappingEntry modelName mode),
    modelStatus := "swapping",
    isSwappingModel := true }

/-- `handleModelSwap` (`useModels.ts` lines 48-124) as a function of its
environment, returning the hook state once the attempt has reached a
terminal path. `prev` is `currentModel` at call time (stored as
`previousModel`); `swapPostOk` is whether the initial swap POST succeeds;
`resp` feeds the status polls; `fallbackPostOk` / `fallbackStatusResp`
feed `fallbackToDefaultModel` when a failure path reaches it. -/
def handleModelSwap (prev : Option StatusData) (modelName mode : String)
    (swapPostOk : Bool) (resp : Nat → Option StatusData)
    (fallbackPostOk : Bool) (fallbackStatusResp : Option StatusData)
    (st0 : ClientState) : ClientState :=
  if swapPostOk then
    let st1 := afterAccept modelName mode st0
    match pollFinal resp modelName with
    | some d =>
      if isSuccess d modelName then
        { st1 with currentModel := some d, modelStatus := "online", isSwappingModel := false }
      else fallbackToDefaultModel prev fallbackPostOk fallbackStatusResp st1
    | none => fallbackToDefaultModel prev fallbackPostOk fallbackStatusResp st1
  else
    fallbackToDefaultModel prev fallbackPostOk fallbackStatusResp
      { st0 with
        isSwappingModel := true,
        alerts := st0.alerts ++ ["Failed to switch model. Please try again."] }

/-! ## UI gating (`ControlButtons.tsx` and `SystemStatus`) -/

/-- The `disabled` expression of the Upload Resumes button
(`ControlButtons.tsx` line 34):
`isUploading || modelStatus === "offline" || currentModel?.status === "swapping"`. -/
def uploadDisabled (isUploading : Bool) (modelStatus : String)
    (currentModel : Option StatusData) : Bool :=
  isUploading || modelStatus == "offline" ||
    (match currentModel with
     | some d => d.status == "swapping"
     | none => false)

/-- `getSystemStatusColor` from the `SystemStatus` component. -/
def getSystemStatusColor (backendStatus modelStatus : String) : String :=
  if modelStatus == "swapping" then "bg-orange-500"
  else if backendStatus == "online" && modelStatus == "online" then "bg-green-500"
  else if backendStatus == "online" && modelStatus == "offline" then "bg-orange-500"
  else if backendStatus == "offline" then "bg-red-500"
  else "bg-yellow-500"

/-- `getSystemStatusText` from the `SystemStatus` component. -/
def getSystemStatusText (backendStatus modelStatus : String) : String :=
  if modelStatus == "swapping" then "Switching Model..."
  else if backendStatus == "online" && modelStatus == "online" then "System Online"
  else if backendStatus == "online" && modelStatus == "offline" then "AI Model Offline"
  else if backendStatus == "offline" && modelStatus == "online" then "Backend Offline"
  else "System Offline"

/-- `getSystemStatusAnimation` from the `SystemStatus` component. -/
def getSystemStatusAnimation (modelStatus : String)
    (isUploading isRefreshing : Bool) : String :=
  if modelStatus == "swapping" || isUploading || isRefreshing then "animate-pulse"
  else ""

/-! ## The backend Swap Coordinator (modelled from the design spec) -/

/-- Modelled from the spec: the `status` field of `SwapState`
(design document section 3); the backend model service sources
(`backend/model_service.py`, `backend/app/routers/models.py`) are not in
the provided tree. -/
inductive CoordStatus where
  | idle
  | swapping
  | error
deriving DecidableEq, Repr

/-- Modelled from the spec: the Coordinator-owned `SwapState` record
(section 3: `currentModel`, `currentMode`, `status`, `lastError`), with
`lastAttempted` carrying the `lastAttemptedModel` component of the
`Error(lastAttemptedModel, cause)` state of section 4.3. The backend
sources holding this record are not in the provided tree. -/
structure SwapState where
  currentModel : Option String
  currentMode : Option String
  status : CoordStatus
  lastError : Option String
  lastAttempted : Option String
deriving DecidableEq, Repr

/-- Modelled from the spec: the ephemeral `SwapRequest` value object
(section 3): requested model name + requested inference mode. -/
structure SwapRequest where
  modelName : String
  mode : String
deriving DecidableEq, Repr

/-- Modelled from the spec: the synchronous responses of section 7
(`accepted` is the 202-style acknowledgement, `successNoop` the immediate
success of the idempotence law, `swapInProgress` and `validationError`
the two synchronous rejections). -/
inductive SwapResponse where
  | accepted
  | successNoop
  | swapInProgress
  | validationError
deriving DecidableEq, Repr

/-- Modelled from the spec: the Runtime Host operations the Coordinator may
invoke during a swap (section 4.2). -/
inductive HostOp where
  | unloadCurrent
  | load (modelName : String)
deriving DecidableEq, Repr

/-- Modelled from the spec: outcome of one Runtime Host operation
(section 4.2: `unloadCurrent` may fail with `UnloadFailed`, `load` with
`LoadFailed`). -/
inductive HostOutcome where
  | ok
  | failed (cause : String)
deriving DecidableEq, Repr

/-- Registry membership test: `resolve(modelName, modeName)` of section 4.1,
with the registry as a list of valid (model, mode) pairs. -/
def inRegistry (reg : List (String × String)) (modelName mode : String) : Bool :=
  reg.any (fun p => p.1 == modelName && p.2 == mode)

/-- The `SwapState` reached when a swap completes cleanly:
`Swapping → Idle(toModel)` (section 4.3). -/
def idleState (req : SwapRequest) : SwapState :=
  ⟨some req.modelName, some req.mode, CoordStatus.idle, none, none⟩

/-- The `SwapState` reached when the requested load fails but the fallback
reload succeeds: `Idle(fallbackModel)` with the original failure still
surfaced in the status payload (section 4.3). -/
def recoveredState (fallback fallbackMode cause : String) (req : SwapRequest) : SwapState :=
  ⟨some fallback, some fallbackMode, CoordStatus.idle, some cause, some req.modelName⟩

/-- The `SwapState` reached when the fallback reload also fails:
`Error(toModel, cause)`; no model is considered loaded (section 4.3). -/
def errorState (cause : String) (req : SwapRequest) : SwapState :=
  ⟨none, none, CoordStatus.error, some cause, some req.modelName⟩

/-- Modelled from the spec: one complete swap attempt of the Coordinator state
machine of section 4.3 — the backend sources implementing it are not in
the provided tree. Inputs beyond the request: the registry, the statically
configured fallback model and its mode, and the outcomes the Runtime Host
would give for `unloadCurrent`, `load(target)` and the fallback
`load(fallbackModel)`. Returns the final `SwapState`, the synchronous
response, and the list of host operations invoked. Order of checks, per
sections 4.3 and 7: while `Swapping` every request is rejected with
`SwapInProgress`; then validation against the registry; then the
idempotence no-op when the target is the already-active pair in `Idle`;
otherwise the swap runs `unloadCurrent` then `load`, with automatic
rollback to the fallback model when either step fails. -/
def runSwap (reg : List (String × String)) (fallback fallbackMode : String)
    (st : SwapState) (req : SwapRequest)
    (unloadRes loadRes fallbackLoadRes : HostOutcome) :
    SwapState × SwapResponse × List HostOp :=
  if st.status = CoordStatus.swapping then
    (st, SwapResponse.swapInProgress, [])
  else if ¬ inRegistry reg req.modelName req.mode then
    (st, SwapResponse.validationError, [])
  else if st.status = CoordStatus.idle ∧ st.currentModel = some req.modelName ∧
      st.currentMode = some req.mode then
    (st, SwapResponse.successNoop, [])
  else
    match unloadRes with
    | HostOutcome.failed cause =>
      match fallbackLoadRes with
      | HostOutcome.ok =>
        (recoveredState fallback fallbackMode cause req, SwapResponse.accepted,
          [HostOp.unloadCurrent, HostOp.load fallback])
      | HostOutcome.failed _ =>
        (errorState cause req, SwapResponse.accepted,
          [HostOp.unloadCurrent, HostOp.load fallback])
    | HostOutcome.ok =>
      match loadRes with
      | HostOutcome.ok =>
        (idleState req, SwapResponse.accepted,
          [HostOp.unloadCurrent, HostOp.load req.modelName])
      | HostOutcome.failed cause =>
        match fallbackLoadRes with
        | HostOutcome.ok =>
          (recoveredState fallback fallbackMode cause req, SwapResponse.accepted,
            [HostOp.unloadCurrent, HostOp.load req.modelName, HostOp.load fallback])
        | HostOutcome.failed _ =>
          (errorState cause req, SwapResponse.accepted,
            [HostOp.unloadCurrent, HostOp.load req.modelName, HostOp.load fallback])

/-! ## Concrete inputs used to instantiate the theorems -/

/-- A status endpoint that reports a swap permanently in progress. -/
def respSwappingForever : Nat → Option StatusData :=
  fun _ => some ⟨some "other-model", some "one_shot", "swapping"⟩

/-- A status endpoint that reports status `error` from the first poll on. -/
def respErrorAtOnce : Nat → Option StatusData :=
  fun _ => some ⟨none, none, "error"⟩

/-- A status endpoint that reports the target model idle from the first poll on. -/
def respIdleTarget : Nat → Option StatusData :=
  fun _ => some ⟨some "target-model", some "one_shot", "idle"⟩

/-- A quiescent client state. -/
def stExample : ClientState := ⟨none, "online", false, []⟩

/-- A two-entry registry: the requested model `A` and the fallback `D`. -/
def regExample : List (String × String) := [("A", "one_shot"), ("D", "one_shot")]

/-- A Coordinator state with model `B` loaded and idle. -/
def idleBState : SwapState :=
  ⟨some "B", some "one_shot", CoordStatus.idle, none, none⟩

/-- A Coordinator state in the middle of a swap from `B` to `A`. -/
def swappingState : SwapState :=
  ⟨some "B", some "one_shot", CoordStatus.swapping, none, none⟩

/-! ## Helper lemmas about the poll loop -/

theorem pollTerminal_at_max (resp : Nat → Option StatusData) (target : String)
    (k : Nat) (h : maxPollAttempts ≤ k) : pollTerminal resp target k = true := by
  unfold pollTerminal
  cases resp k with
  | none => simpa using h
  | some d => simp [h]

theorem pollStopAux_terminal (resp : Nat → Option StatusData) (target : String) :
    ∀ fuel k, maxPollAttempts + 1 ≤ fuel + k →
      pollTerminal resp target (pollStopAux resp target fuel k) = true := by
  intro fuel
  induction fuel with
  | zero =>
    intro k hk
    simp only [pollStopAux]
    exact pollTerminal_at_max resp target k (by omega)
  | succ n ih =>
    intro k hk
    unfold pollStopAux
    by_cases h : pollTerminal resp target k = true
    · simp [h]
    · simp [h]
      exact ih (k + 1) (by omega)

theorem pollStopAux_min (resp : Nat → Option StatusData) (target : String) :
    ∀ fuel k, (∀ j, j < k → pollTerminal resp target j = false) →
      ∀ j, j < pollStopAux resp target fuel k → pollTerminal resp target j = false := by
  intro fuel
  induction fuel with
  | zero =>
    intro k hk j hj
    exact hk j hj
  | succ n ih =>
    intro k hk j hj
    unfold pollStopAux at hj
    by_cases h : pollTerminal resp target k = true
    · simp [h] at hj
      exact hk j hj
    · simp [h] at hj
      refine ih (k + 1) ?_ j hj
      intro j' hj'
      rcases Nat.lt_succ_iff_lt_or_eq.mp hj' with h' | h'
      · exact hk j' h'
      · subst h'
        simpa using h

theorem pollStop_terminal (resp : Nat → Option StatusData) (target : String) :
    pollTerminal resp target (pollStop resp target) = true :=
  pollStopAux_terminal resp target (maxPollAttempts + 1) 0 (by omega)

theorem pollStop_min (resp : Nat → Option StatusData) (target : String) :
    ∀ j, j < pollStop resp target → pollTerminal resp target j = false :=
  pollStopAux_min resp target (maxPollAttempts + 1) 0 (by omega)

theorem pollStop_le_max (resp : Nat → Option StatusData) (target : String) :
    pollStop resp target ≤ maxPollAttempts := by
  by_contra h
  have hlt : maxPollAttempts < pollStop resp target := by omega
  have := pollStop_min resp target maxPollAttempts hlt
  rw [pollTerminal_at_max resp target maxPollAttempts (Nat.le_refl _)] at this
  simp at this

/-! ## Helper lemmas about the client swap attempt -/

theorem fallback_clears_isSwappingModel (prev : Option StatusData)
    (fpo : Bool) (fsr : Option StatusData) (st : ClientState) :
    (fallbackToDefaultModel prev fpo fsr st).isSwappingModel = false := by
  unfold fallbackToDefaultModel
  cases fpo with
  | false => simp
  | true => cases fsr <;> simp

theorem fallback_alerts_of_postOk (prev : Option StatusData)
    (fsr : Option StatusData) (st : ClientState) :
    (fallbackToDefaultModel prev true fsr st).alerts = st.alerts := by
  unfold fallbackToDefaultModel
  cases fsr <;> simp

theorem fallback_alerts_of_postFailed (prev : Option StatusData)
    (fsr : Option StatusData) (st : ClientState) :
    (fallbackToDefaultModel prev false fsr st).alerts =
      st.alerts ++ ["Model switch failed. Please check the model service."] := by
  unfold fallbackToDefaultModel
  simp

theorem handleModelSwap_of_pollFailure (prev : Option StatusData)
    (modelName mode : String) (resp : Nat → Option StatusData)
    (fpo : Bool) (fsr : Option StatusData) (st0 : ClientState)
    (hfail : pollOutcomeIsSuccess resp modelName = false) :
    handleModelSwap prev modelName mode true resp fpo fsr st0 =
      fallbackToDefaultModel prev fpo fsr (afterAccept modelName mode st0) := by
  unfold handleModelSwap
  unfold pollOutcomeIsSuccess at hfail
  cases h : pollFinal resp modelName with
  | none => simp [h]
  | some d =>
    rw [h] at hfail
    simp only [] at hfail
    simp [h, hfail]

theorem handleModelSwap_of_pollSuccess (prev : Option StatusData)
    (modelName mode : String) (resp : Nat → Option StatusData)
    (fpo : Bool) (fsr : Option StatusData) (st0 : ClientState)
    (hs : pollOutcomeIsSuccess resp modelName = true) :
    handleModelSwap prev modelName mode true resp fpo fsr st0 =
      { afterAccept modelName mode st0 with
        currentModel := pollFinal resp modelName,
        modelStatus := "online",
        isSwappingModel := false } := by
  unfold handleModelSwap
  unfold pollOutcomeIsSuccess at hs
  cases h : pollFinal resp modelName with
  | none => rw [h] at hs; simp at hs
  | some d =>
    rw [h] at hs
    simp only [] at hs
    simp [h, hs]

/-! ## Claim theorems -/

/-- Claim C2: while the Coordinator is `Swapping`, every further `SwapRequest`
is rejected synchronously with `SwapInProgress`: the `SwapState` is
unchanged, no Runtime Host operation is invoked, and the rejected request
is not queued anywhere for later execution. -/
theorem coordinator_swapping_rejects_concurrent_request
    (reg : List (String × String)) (fallback fallbackMode : String)
    (st : SwapState) (req : SwapRequest)
    (unloadRes loadRes fallbackLoadRes : HostOutcome)
    (h : st.status = CoordStatus.swapping) :
    runSwap reg fallback fallbackMode st req unloadRes loadRes fallbackLoadRes =
      (st, SwapResponse.swapInProgress, []) := by
  unfold runSwap
  rw [if_pos h]

theorem coordinator_swapping_rejects_concurrent_request_witness :
    runSwap regExample "D" "one_shot" swappingState ⟨"A", "one_shot"⟩
      HostOutcome.ok HostOutcome.ok HostOutcome.ok =
      (swappingState, SwapResponse.swapInProgress, []) :=
  coordinator_swapping_rejects_concurrent_request regExample "D" "one_shot"
    swappingState ⟨"A", "one_shot"⟩ HostOutcome.ok HostOutcome.ok HostOutcome.ok
    (by decide)

/-- Claim C5: a `SwapRequest` for the already-active (model, mode) pair while
the Coordinator is `Idle` returns success immediately, leaves `SwapState`
unchanged, and invokes neither `unloadCurrent` nor `load`. -/
theorem coordinator_idempotent_swap_is_noop
    (reg : List (String × String)) (fallback fallbackMode : String)
    (st : SwapState) (req : SwapRequest)
    (unloadRes loadRes fallbackLoadRes : HostOutcome)
    (hidle : st.status = CoordStatus.idle)
    (hmodel : st.currentModel = some req.modelName)
    (hmode : st.currentMode = some req.mode)
    (hval : inRegistry reg req.modelName req.mode = true) :
    runSwap reg fallback fallbackMode st req unloadRes loadRes fallbackLoadRes =
      (st, SwapResponse.successNoop, []) := by
  unfold runSwap
  rw [if_neg (by rw [hidle]; exact fun hc => CoordStatus.noConfusion hc)]
  rw [if_neg (by simp [hval])]
  rw [if_pos ⟨hidle, hmodel, hmode⟩]

theorem coordinator_idempotent_swap_is_noop_witness :
    runSwap regExample "D" "one_shot"
      ⟨some "A", some "one_shot", CoordStatus.idle, none, none⟩ ⟨"A", "one_shot"⟩
      HostOutcome.ok HostOutcome.ok HostOutcome.ok =
      (⟨some "A", some "one_shot", CoordStatus.idle, none, none⟩,
        SwapResponse.successNoop, []) :=
  coordinator_idempotent_swap_is_noop regExample "D" "one_shot"
    ⟨some "A", some "one_shot", CoordStatus.idle, none, none⟩ ⟨"A", "one_shot"⟩
    HostOutcome.ok HostOutcome.ok HostOutcome.ok
    (by decide) (by decide) (by decide) (by decide)

/-- Claim C7: whenever the client's current-model record says a swap is in
flight (`currentModel?.status === "swapping"`), the Upload Resumes button
of `ControlButtons.tsx` is disabled, for every combination of the other
inputs — the resume-upload feature is blocked at the boundary. -/
theorem upload_disabled_while_swapping
    (isUploading : Bool) (modelStatus : String)
    (currentModel : Option StatusData) (d : StatusData)
    (hcm : currentModel = some d) (hst : d.status = "swapping") :
    uploadDisabled isUploading modelStatus currentModel = true := by
  subst hcm
  simp [uploadDisabled, hst]

theorem upload_disabled_while_swapping_witness :
    uploadDisabled false "online" (some (swappingEntry "A" "one_shot")) = true :=
  upload_disabled_while_swapping false "online"
    (some (swappingEntry "A" "one_shot")) (swappingEntry "A" "one_shot") rfl rfl

/-- Claim C9: every terminal path of a swap attempt in the `useModels` hook —
polling success, polling failure or exhaustion followed by
`fallbackToDefaultModel` (whether the fallback POST succeeds or fails, and
whether the post-fallback status fetch resolves or throws), or the initial
swap POST failing — leaves `isSwappingModel` at `false`, so the controls
disabled while it is `true` are re-enabled after the attempt ends. -/
theorem swap_attempt_always_clears_isSwappingModel
    (prev : Option StatusData) (modelName mode : String) (swapPostOk : Bool)
    (resp : Nat → Option StatusData) (fpo : Bool) (fsr : Option StatusData)
    (st0 : ClientState) :
    (handleModelSwap prev modelName mode swapPostOk resp fpo fsr st0).isSwappingModel
      = false := by
  unfold handleModelSwap
  cases swapPostOk with
  | false => simpa using fallback_clears_isSwappingModel prev fpo fsr _
  | true =>
    cases h : pollFinal resp modelName with
    | none => simpa [h] using fallback_clears_isSwappingModel prev fpo fsr _
    | some d =>
      by_cases hs : isSuccess d modelName = true
      · simp [h, hs]
      · simp only [Bool.not_eq_true] at hs
        simpa [h, hs] using fallback_clears_isSwappingModel prev fpo fsr _

/-- Claim C10: in `SystemStatus`, `modelStatus = "swapping"` forces the
indicator text "Switching Model..." and the orange colour class for every
`backendStatus` (including "offline"), and the pulse animation class is
applied exactly when `modelStatus = "swapping"` or `isUploading` or
`isRefreshing`. -/
theorem system_status_swapping_precedence_and_pulse
    (backendStatus modelStatus : String) (isUploading isRefreshing : Bool) :
    getSystemStatusText backendStatus "swapping" = "Switching Model..." ∧
    getSystemStatusColor backendStatus "swapping" = "bg-orange-500" ∧
    (getSystemStatusAnimation modelStatus isUploading isRefreshing = "animate-pulse"
      ↔ (modelStatus = "swapping" ∨ isUploading = true ∨ isRefreshing = true)) := by
  refine ⟨by simp [getSystemStatusText], by simp [getSystemStatusColor], ?_⟩
  unfold getSystemStatusAnimation
  by_cases hm : modelStatus = "swapping"
  · subst hm
    simp
  · cases isUploading <;> cases isRefreshing <;> simp [hm]

theorem system_status_swapping_precedence_and_pulse_witness :
    getSystemStatusText "offline" "swapping" = "Switching Model..." ∧
    getSystemStatusColor "offline" "swapping" = "bg-orange-500" ∧
    getSystemStatusAnimation "swapping" false false = "animate-pulse" :=
  ⟨(system_status_swapping_precedence_and_pulse "offline" "swapping" false false).1,
    (system_status_swapping_precedence_and_pulse "offline" "swapping" false false).2.1,
    (system_status_swapping_precedence_and_pulse "offline" "swapping" false false).2.2.mpr
      (Or.inl rfl)⟩

/-- Claim C1: if the Runtime Host load of the requested target model fails
(unload succeeded, `load(target)` failed), the Coordinator ends either in
`Idle(fallbackModel)` with the original failure still surfaced in
`lastError`, or in `Error(target, cause)` with no model considered loaded;
and (whenever the target is not itself the configured fallback model) it
never ends in `Idle(target)` — a failed load is never reported as the
active model. -/
theorem coordinator_load_failure_never_reports_target
    (reg : List (String × String)) (fallback fallbackMode : String)
    (st : SwapState) (req : SwapRequest) (cause : String)
    (fallbackLoadRes : HostOutcome) (st' : SwapState)
    (hst' : st' = (runSwap reg fallback fallbackMode st req HostOutcome.ok
      (HostOutcome.failed cause) fallbackLoadRes).1)
    (hns : st.status ≠ CoordStatus.swapping)
    (hval : inRegistry reg req.modelName req.mode = true)
    (hnoop : ¬ (st.status = CoordStatus.idle ∧ st.currentModel = some req.modelName ∧
      st.currentMode = some req.mode))
    (hfb : req.modelName ≠ fallback) :
    ((st'.status = CoordStatus.idle ∧ st'.currentModel = some fallback ∧
        st'.lastError = some cause) ∨
      (st'.status = CoordStatus.error ∧ st'.currentModel = none)) ∧
    ¬ (st'.status = CoordStatus.idle ∧ st'.currentModel = some req.modelName) := by
  subst hst'
  cases fallbackLoadRes with
  | ok =>
    have hrun : runSwap reg fallback fallbackMode st req HostOutcome.ok
        (HostOutcome.failed cause) HostOutcome.ok =
        (recoveredState fallback fallbackMode cause req, SwapResponse.accepted,
          [HostOp.unloadCurrent, HostOp.load req.modelName, HostOp.load fallback]) := by
      unfold runSwap
      rw [if_neg hns, if_neg (by simp [hval]), if_neg hnoop]
    rw [hrun]
    refine ⟨Or.inl ⟨rfl, rfl, rfl⟩, ?_⟩
    rintro ⟨-, hc⟩
    exact hfb (Option.some.inj hc).symm
  | failed c =>
    have hrun : runSwap reg fallback fallbackMode st req HostOutcome.ok
        (HostOutcome.failed cause) (HostOutcome.failed c) =
        (errorState cause req, SwapResponse.accepted,
          [HostOp.unloadCurrent, HostOp.load req.modelName, HostOp.load fallback]) := by
      unfold runSwap
      rw [if_neg hns, if_neg (by simp [hval]), if_neg hnoop]
    rw [hrun]
    refine ⟨Or.inr ⟨rfl, rfl⟩, ?_⟩
    rintro ⟨hc, -⟩
    exact CoordStatus.noConfusion hc

theorem coordinator_load_failure_never_reports_target_witness :
    (((recoveredState "D" "one_shot" "oom" ⟨"A", "one_shot"⟩).status = CoordStatus.idle ∧
        (recoveredState "D" "one_shot" "oom" ⟨"A", "one_shot"⟩).currentModel = some "D" ∧
        (recoveredState "D" "one_shot" "oom" ⟨"A", "one_shot"⟩).lastError = some "oom") ∨
      ((recoveredState "D" "one_shot" "oom" ⟨"A", "one_shot"⟩).status = CoordStatus.error ∧
        (recoveredState "D" "one_shot" "oom" ⟨"A", "one_shot"⟩).currentModel = none)) ∧
    ¬ ((recoveredState "D" "one_shot" "oom" ⟨"A", "one_shot"⟩).status = CoordStatus.idle ∧
      (recoveredState "D" "one_shot" "oom" ⟨"A", "one_shot"⟩).currentModel = some "A") :=
  coordinator_load_failure_never_reports_target regExample "D" "one_shot"
    idleBState ⟨"A", "one_shot"⟩ "oom" HostOutcome.ok
    (recoveredState "D" "one_shot" "oom" ⟨"A", "one_shot"⟩)
    (by decide) (by decide) (by decide) (by decide) (by decide)

/-- Claim C3 (code bug): with the status endpoint reporting a swap still in
progress on every poll, the poller's final poll fires 153000 ms of
`setTimeout` delay after submission — 51 polls in all (`pollAttempts`
values 0 through 50), each preceded by a 3000 ms delay — exceeding the
`pollIntervalMs × maxPollAttempts = 150000` ms ceiling that both the
design document and the in-code comment
("50 attempts * 3 seconds = 150 seconds max") state. -/
theorem poll_timeout_exceeds_documented_ceiling :
    pollFinishTime respSwappingForever "target-model" = 153000 ∧
    pollIntervalMs * maxPollAttempts = 150000 ∧
    pollStop respSwappingForever "target-model" + 1 = 51 := by
  decide

/-- Claim C4: the poll loop stops exactly at the first poll index satisfying
one of the three terminal conditions (idle with matching model; status
`error`; attempt budget exhausted, also applied when the status fetch
throws), no earlier index is terminal, and the terminal branch taken is
determined by the success test: on success the hook records the polled
payload with `modelStatus = "online"`, and in every non-success terminal
case the result is exactly `fallbackToDefaultModel`. -/
theorem poll_stops_exactly_at_first_terminal_condition
    (resp : Nat → Option StatusData) (target mode : String)
    (prev : Option StatusData) (fpo : Bool) (fsr : Option StatusData)
    (st0 : ClientState) :
    pollTerminal resp target (pollStop resp target) = true ∧
    ((List.range (pollStop resp target)).all fun j => ! pollTerminal resp target j)
      = true ∧
    (pollOutcomeIsSuccess resp target = false →
      handleModelSwap prev target mode true resp fpo fsr st0 =
        fallbackToDefaultModel prev fpo fsr (afterAccept target mode st0)) ∧
    (pollOutcomeIsSuccess resp target = true →
      handleModelSwap prev target mode true resp fpo fsr st0 =
        { afterAccept target mode st0 with
          currentModel := pollFinal resp target,
          modelStatus := "online",
          isSwappingModel := false }) := by
  refine ⟨pollStop_terminal resp target, ?_, ?_, ?_⟩
  · rw [List.all_eq_true]
    intro j hj
    rw [List.mem_range] at hj
    simp [pollStop_min resp target j hj]
  · intro hfail
    exact handleModelSwap_of_pollFailure prev target mode resp fpo fsr st0 hfail
  · intro hs
    exact handleModelSwap_of_pollSuccess prev target mode resp fpo fsr st0 hs

theorem poll_stops_exactly_at_first_terminal_condition_witness :
    pollTerminal respErrorAtOnce "target-model"
      (pollStop respErrorAtOnce "target-model") = true ∧
    handleModelSwap none "target-model" "one_shot" true respErrorAtOnce true none
      stExample =
      fallbackToDefaultModel none true none
        (afterAccept "target-model" "one_shot" stExample) :=
  ⟨(poll_stops_exactly_at_first_terminal_condition respErrorAtOnce "target-model"
      "one_shot" none true none stExample).1,
    (poll_stops_exactly_at_first_terminal_condition respErrorAtOnce "target-model"
      "one_shot" none true none stExample).2.2.1 (by decide)⟩

/-- Claim C6: when the poll loop ends in failure, the user-visible alert
output distinguishes "failed but recovered to a working default" (the
fallback swap POST succeeded: no failure alert is added) from "failed and
nothing is loaded" (the fallback also failed: the alert
"Model switch failed. Please check the model service." is shown) — the two
outcomes are never presented identically. -/
theorem swap_failure_outcomes_presented_distinctly
    (prev : Option StatusData) (target mode : String)
    (resp : Nat → Option StatusData) (fsr : Option StatusData) (st0 : ClientState)
    (hfail : pollOutcomeIsSuccess resp target = false) :
    (handleModelSwap prev target mode true resp true fsr st0).alerts ≠
      (handleModelSwap prev target mode true resp false fsr st0).alerts := by
  rw [handleModelSwap_of_pollFailure prev target mode resp true fsr st0 hfail]
  rw [handleModelSwap_of_pollFailure prev target mode resp false fsr st0 hfail]
  rw [fallback_alerts_of_postOk, fallback_alerts_of_postFailed]
  intro h
  have hlen := congrArg List.length h
  simp at hlen

theorem swap_failure_outcomes_presented_distinctly_witness :
    (handleModelSwap none "target-model" "one_shot" true respErrorAtOnce true none
        stExample).alerts ≠
      (handleModelSwap none "target-model" "one_shot" true respErrorAtOnce false none
        stExample).alerts :=
  swap_failure_outcomes_presented_distinctly none "target-model" "one_shot"
    respErrorAtOnce none stExample (by decide)

end HotSwap
